/-
Verification of the XAI-Dashboard what-if comparison pipeline.

Shallow embedding of:
  - the StudentInput record shape and the changed-field computation of
    WhatIfInputForm (the useEffect that diffs the watched form data against
    the baseline record);
  - the comparison-row construction getComparisonData of ComparisonView;
  - the single-sided chart rankings prepareSHAPData / prepareLIMEData /
    prepareFeatureImportanceData of ExplanationChart;
  - the API client error translation (response interceptor plus the
    per-operation catch blocks) of api/index.ts;
  - the WhatIfAnalysis page state machine (handleModifiedDataChange,
    the debounced predict+explain pair, handleReset);
  - a model of the lodash trailing debounce used for re-evaluation.

JavaScript numbers are modelled as rationals (ℚ): every property proved here
is about ordering, truncation, set membership and state framing, none of
which depends on binary floating-point rounding.
-/
import Mathlib

namespace XaiDashboard

/-- Runtime value of one StudentInput field: a number, a string or a
boolean, compared with strict (same-type) value equality as JS `!==` does
on these primitive types. -/
inductive FieldValue where
  | num (q : ℚ)
  | str (s : String)
  | bool (b : Bool)
deriving DecidableEq

/-- The StudentInput record shape from types.ts (28 fields). -/
structure StudentInput where
  id_student : ℚ
  code_module : String
  code_presentation : String
  gender : String
  region : String
  highest_education : String
  imd_band : String
  age_band : String
  num_of_prev_attempts : ℚ
  studied_credits : ℚ
  disability : String
  completed_course : Bool
  withdrawal_status : Bool
  total_clicks : ℚ
  avg_clicks_per_session : ℚ
  click_variability : ℚ
  total_sessions : ℚ
  first_access_day : ℚ
  last_access_day : ℚ
  active_days : ℚ
  engagement_duration : ℚ
  daily_engagement_rate : ℚ
  avg_assessment_score : ℚ
  score_consistency : ℚ
  total_assessments : ℚ
  first_submission : ℚ
  last_submission : ℚ
  banked_assessments : ℚ
deriving DecidableEq

/-- Object.keys order of a StudentInput form-data object (the declaration
order of the interface, which is also the insertion order of the form's
defaultValues object). -/
def studentInputKeys : List String :=
  ["id_student", "code_module", "code_presentation", "gender", "region",
   "highest_education", "imd_band", "age_band", "num_of_prev_attempts",
   "studied_credits", "disability", "completed_course", "withdrawal_status",
   "total_clicks", "avg_clicks_per_session", "click_variability",
   "total_sessions", "first_access_day", "last_access_day", "active_days",
   "engagement_duration", "daily_engagement_rate", "avg_assessment_score",
   "score_consistency", "total_assessments", "first_submission",
   "last_submission", "banked_assessments"]

/-- Dynamic field access `record[key]`, as used by the changed-field
tracking effect. Keys outside the record shape yield `undefined` in JS;
that case is modelled by a default value and is never reached through
`studentInputKeys`. -/
def getField (s : StudentInput) : String → FieldValue
  | "id_student" => .num s.id_student
  | "code_module" => .str s.code_module
  | "code_presentation" => .str s.code_presentation
  | "gender" => .str s.gender
  | "region" => .str s.region
  | "highest_education" => .str s.highest_education
  | "imd_band" => .str s.imd_band
  | "age_band" => .str s.age_band
  | "num_of_prev_attempts" => .num s.num_of_prev_attempts
  | "studied_credits" => .num s.studied_credits
  | "disability" => .str s.disability
  | "completed_course" => .bool s.completed_course
  | "withdrawal_status" => .bool s.withdrawal_status
  | "total_clicks" => .num s.total_clicks
  | "avg_clicks_per_session" => .num s.avg_clicks_per_session
  | "click_variability" => .num s.click_variability
  | "total_sessions" => .num s.total_sessions
  | "first_access_day" => .num s.first_access_day
  | "last_access_day" => .num s.last_access_day
  | "active_days" => .num s.active_days
  | "engagement_duration" => .num s.engagement_duration
  | "daily_engagement_rate" => .num s.daily_engagement_rate
  | "avg_assessment_score" => .num s.avg_assessment_score
  | "score_consistency" => .num s.score_consistency
  | "total_assessments" => .num s.total_assessments
  | "first_submission" => .num s.first_submission
  | "last_submission" => .num s.last_submission
  | "banked_assessments" => .num s.banked_assessments
  | _ => .num 0

/-- The changed-field tracking useEffect of WhatIfInputForm: iterate
Object.keys(formData) and collect every key whose value differs (strict
inequality) from the baseline originalData. -/
def changedFieldsOf (formData originalData : StudentInput) : List String :=
  studentInputKeys.filter (fun key => getField formData key ≠ getField originalData key)

/-- The defaultValues record of StudentInputForm, used as a concrete
sample record. -/
def defaultStudent : StudentInput where
  id_student := 12345
  code_module := "AAA"
  code_presentation := "2013J"
  gender := "M"
  region := "East Anglian Region"
  highest_education := "HE Qualification"
  imd_band := "90-100%"
  age_band := "35-55"
  num_of_prev_attempts := 0
  studied_credits := 60
  disability := "N"
  completed_course := true
  withdrawal_status := false
  total_clicks := 150
  avg_clicks_per_session := 25
  click_variability := 12
  total_sessions := 8
  first_access_day := 5
  last_access_day := 45
  active_days := 25
  engagement_duration := 120
  daily_engagement_rate := Rat.divInt 3 4
  avg_assessment_score := 85
  score_consistency := Rat.divInt 4 5
  total_assessments := 4
  first_submission := 10
  last_submission := 40
  banked_assessments := 1

/-- One per-feature entry of the feature_importance list of an
ExplanationResponse. -/
structure FeatureImportance where
  feature : String
  importance : ℚ
  direction : String
  shap_value : ℚ
  lime_value : ℚ
deriving DecidableEq

/-- The lime sub-object of lime_explanation: top_features mapping,
intercept and local prediction. top_features is optional because the
rendering code guards its absence with optional chaining. -/
structure LimeData where
  top_features : Option (List (String × ℚ))
  intercept : ℚ
  local_prediction : ℚ
deriving DecidableEq

/-- The lime_explanation sub-structure of an ExplanationResponse. -/
structure LimeExplanation where
  shap : List (String × ℚ)
  lime : Option LimeData
deriving DecidableEq

/-- The ExplanationResponse shape from types.ts. A JS object mapping is
modelled as an association list in key-insertion order. The top-level
mappings are optional because every consumer guards them with optional
chaining before use. -/
structure ExplanationResponse where
  student_id : ℚ
  prediction : String
  shap_values : Option (List (String × ℚ))
  lime_explanation : Option LimeExplanation
  feature_importance : Option (List FeatureImportance)
deriving DecidableEq

/-- The PredictionResponse shape from types.ts. -/
structure PredictionResponse where
  prediction : String
  probabilities : List (String × ℚ)
  confidence : ℚ
  student_id : ℚ
deriving DecidableEq

/-- The HealthResponse shape from types.ts. -/
structure HealthResponse where
  status : String
  model_loaded : Bool
  version : String
  timestamp : String
deriving DecidableEq

/-- Optional chaining `explanation?.shap_values`. -/
def shapValuesOf (e : Option ExplanationResponse) : Option (List (String × ℚ)) :=
  match e with
  | none => none
  | some ex => ex.shap_values

/-- JS `shapMap[feature] || 0`: a missing feature contributes 0 (and a
stored 0, being falsy, also yields 0). -/
def lookupD (m : List (String × ℚ)) (feature : String) : ℚ :=
  (m.lookup feature).getD 0

/-- JS `feature.replace(/_/g, ' ').toUpperCase()`: underscores become
spaces, then every character is uppercased. -/
def displayName (feature : String) : String :=
  feature.map (fun c => if c = '_' then ' ' else c.toUpper)

/-- First-occurrence deduplication with an accumulator of already-seen
keys; models the insertion-order semantics of a JS Set built from a
spread of key arrays. -/
def dedupFirstAux : List String → List String → List String
  | [], _ => []
  | x :: xs, seen =>
      if x ∈ seen then dedupFirstAux xs seen else x :: dedupFirstAux xs (x :: seen)

/-- JS `new Set([...Object.keys(originalShap), ...Object.keys(modifiedShap)])`:
all unique feature names, original keys first, in first-occurrence order. -/
def unionKeys (originalShap modifiedShap : List (String × ℚ)) : List String :=
  dedupFirstAux (originalShap.map Prod.fst ++ modifiedShap.map Prod.fst) []

/-- One comparison row pushed by getComparisonData. -/
structure CompRow where
  feature : String
  original : ℚ
  modified : ℚ
  change : ℚ
  isChanged : Bool
deriving DecidableEq

/-- Ordering used by the comparison sort: descending absolute change,
i.e. the JS comparator `(a, b) => Math.abs(b.change) - Math.abs(a.change)`. -/
def rowGE (a b : CompRow) : Prop := |b.change| ≤ |a.change|

instance : DecidableRel rowGE :=
  fun a b => inferInstanceAs (Decidable (|b.change| ≤ |a.change|))

instance : IsTotal CompRow rowGE := ⟨fun a b => le_total |b.change| |a.change|⟩

instance : IsTrans CompRow rowGE := ⟨fun _ _ _ h1 h2 => le_trans h2 h1⟩

/-- The loop body of getComparisonData for a single feature of the key
union. -/
def mkRow (originalShap modifiedShap : List (String × ℚ)) (changedFields : List String)
    (feature : String) : CompRow :=
  let originalValue := lookupD originalShap feature
  let modifiedValue := lookupD modifiedShap feature
  { feature := displayName feature
    original := originalValue
    modified := modifiedValue
    change := modifiedValue - originalValue
    isChanged := changedFields.contains feature }

/-- ComparisonView.getComparisonData: if either explanation's SHAP mapping
is absent, return []; otherwise build one row per feature of the key
union, sort by descending absolute change (a stable sort, as JS
Array.prototype.sort is) and keep the top 10. -/
def getComparisonData (originalExplanation modifiedExplanation : Option ExplanationResponse)
    (changedFields : List String) : List CompRow :=
  match shapValuesOf originalExplanation, shapValuesOf modifiedExplanation with
  | some originalShap, some modifiedShap =>
      (List.insertionSort rowGE
        ((unionKeys originalShap modifiedShap).map
          (mkRow originalShap modifiedShap changedFields))).take 10
  | _, _ => []

/-- One chart entry produced by prepareSHAPData / prepareLIMEData. -/
structure ChartEntry where
  feature : String
  value : ℚ
  absValue : ℚ
deriving DecidableEq

/-- Ordering used by the single-sided charts: descending absolute value,
i.e. the JS comparator `(a, b) => b.absValue - a.absValue`. -/
def entryGE (a b : ChartEntry) : Prop := b.absValue ≤ a.absValue

instance : DecidableRel entryGE :=
  fun a b => inferInstanceAs (Decidable (b.absValue ≤ a.absValue))

instance : IsTotal ChartEntry entryGE := ⟨fun a b => le_total b.absValue a.absValue⟩

instance : IsTrans ChartEntry entryGE := ⟨fun _ _ _ h1 h2 => le_trans h2 h1⟩

/-- ExplanationChart.prepareSHAPData: map the SHAP entries to chart rows,
sort by descending absolute value, keep the top 10. -/
def prepareSHAPData (explanation : Option ExplanationResponse) : List ChartEntry :=
  match shapValuesOf explanation with
  | none => []
  | some sv =>
      (List.insertionSort entryGE
        (sv.map (fun p => ⟨displayName p.1, p.2, |p.2|⟩))).take 10

/-- Optional chaining `explanation?.lime_explanation?.lime?.top_features`. -/
def topFeaturesOf (e : Option ExplanationResponse) : Option (List (String × ℚ)) :=
  match e with
  | none => none
  | some ex =>
    match ex.lime_explanation with
    | none => none
    | some le =>
      match le.lime with
      | none => none
      | some ld => ld.top_features

/-- ExplanationChart.prepareLIMEData: same ranking over the LIME
top_features mapping. -/
def prepareLIMEData (explanation : Option ExplanationResponse) : List ChartEntry :=
  match topFeaturesOf explanation with
  | none => []
  | some tf =>
      (List.insertionSort entryGE
        (tf.map (fun p => ⟨displayName p.1, p.2, |p.2|⟩))).take 10

/-- One chart entry produced by prepareFeatureImportanceData. -/
structure FIEntry where
  feature : String
  importance : ℚ
  direction : String
  shap_value : ℚ
  lime_value : ℚ
deriving DecidableEq

/-- The map step of prepareFeatureImportanceData for one list item. -/
def toFIEntry (item : FeatureImportance) : FIEntry :=
  ⟨displayName item.feature, item.importance, item.direction, item.shap_value, item.lime_value⟩

/-- Optional chaining `explanation?.feature_importance`. -/
def featureImportanceOf (e : Option ExplanationResponse) : Option (List FeatureImportance) :=
  match e with
  | none => none
  | some ex => ex.feature_importance

/-- ExplanationChart.prepareFeatureImportanceData: slice the first 10
items of the feature_importance list and map them to chart rows. The
source performs no sort here. -/
def prepareFeatureImportanceData (explanation : Option ExplanationResponse) : List FIEntry :=
  match featureImportanceOf explanation with
  | none => []
  | some fi => (fi.take 10).map toFIEntry

/-- Descending absolute importance, the order the spec claims for the
feature-importance chart. -/
def fiGE (a b : FIEntry) : Prop := |b.importance| ≤ |a.importance|

instance : DecidableRel fiGE :=
  fun a b => inferInstanceAs (Decidable (|b.importance| ≤ |a.importance|))

/-- The data an axios rejection carries that the response interceptor
inspects: `error.response?.status`, `error.response?.data.detail`,
`error.code`, and the original error message. -/
structure AxiosError where
  status : Option ℕ
  detail : Option String
  code : Option String
  message : String
deriving DecidableEq

/-- The response interceptor of api/index.ts: translate a 422 into a
validation message carrying the server detail (JS `detail || 'Invalid
input data'` also replaces an empty-string detail), a 500 into a fixed
server-error message, connection-refused and timeout codes into fixed
transport messages, and pass any other error through unchanged. -/
def interceptResponseError (e : AxiosError) : String :=
  if e.status = some 422 then
    "Validation Error: " ++
      (match e.detail with
       | some d => if d = "" then "Invalid input data" else d
       | none => "Invalid input data")
  else if e.status = some 500 then
    "Server Error: Please try again later"
  else if e.code = some "ECONNREFUSED" then
    "Connection Error: Backend server is not running"
  else if e.code = some "ECONNABORTED" then
    "Timeout Error: Request took too long to complete"
  else
    e.message

/-- An api call through the axios instance: a successful transport result
passes through; a failure is rejected with the interceptor-translated
message. -/
def apiRequest {α : Type} (outcome : Except AxiosError α) : Except String α :=
  match outcome with
  | .ok r => .ok r
  | .error e => .error (interceptResponseError e)

/-- apiService.predictStudentPerformance: any failure of the underlying
request is caught and replaced by a fixed generic message. -/
def predictStudentPerformance (outcome : Except AxiosError PredictionResponse) :
    Except String PredictionResponse :=
  match apiRequest outcome with
  | .ok r => .ok r
  | .error _ => .error "Failed to predict student performance"

/-- apiService.explainPrediction: same catch-all with its own generic
message. -/
def explainPrediction (outcome : Except AxiosError ExplanationResponse) :
    Except String ExplanationResponse :=
  match apiRequest outcome with
  | .ok r => .ok r
  | .error _ => .error "Failed to generate explanation"

/-- apiService.checkHealth: same catch-all with its own generic message. -/
def checkHealth (outcome : Except AxiosError HealthResponse) :
    Except String HealthResponse :=
  match apiRequest outcome with
  | .ok r => .ok r
  | .error _ => .error "Failed to check API health"

/-- The component state of the WhatIfAnalysis page (the what-if diff
engine). `error` is the spec's lastError. -/
structure EngineState where
  originalData : Option StudentInput
  originalPrediction : Option PredictionResponse
  modifiedPrediction : Option PredictionResponse
  originalExplanation : Option ExplanationResponse
  modifiedExplanation : Option ExplanationResponse
  isLoading : Bool
  error : Option String
  changedFields : List String
deriving DecidableEq

/-- The useState initial values of WhatIfAnalysis: no baseline, no
results, not loading. -/
def initialEngineState : EngineState :=
  { originalData := none, originalPrediction := none, modifiedPrediction := none
    originalExplanation := none, modifiedExplanation := none
    isLoading := false, error := none, changedFields := [] }

/-- One scheduled invocation of the debounced predict+explain pair
(`debouncedPredict(data, isModified)`): a single such invocation issues
exactly one predict call and one explain call via Promise.all. -/
structure DispatchCall where
  data : StudentInput
  isModified : Bool
deriving DecidableEq

/-- WhatIfAnalysis.handleModifiedDataChange (the applyEdit entry point):
always replace changedFields with the freshly computed list; only when a
baseline record exists, set loading and schedule the debounced
predict+explain pair for the edited record. -/
def handleModifiedDataChange (st : EngineState) (data : StudentInput)
    (changedFieldsList : List String) : EngineState × Option DispatchCall :=
  let st1 := { st with changedFields := changedFieldsList }
  match st.originalData with
  | some _ => ({ st1 with isLoading := true }, some ⟨data, true⟩)
  | none => (st1, none)

/-- Promise.all over the predict and explain results: both must resolve;
if either rejects the composite rejects with the first rejection (under
simultaneous settlement, the first-listed one) and the other result is
discarded. -/
def promiseAll {α β : Type} (p : Except String α) (q : Except String β) :
    Except String (α × β) :=
  match p, q with
  | .ok a, .ok b => .ok (a, b)
  | .error e, _ => .error e
  | .ok _, .error e => .error e

/-- The body of WhatIfAnalysis.debouncedPredict once it fires, applied to
the settlement of the two api calls: on joint success store the pair
(into the modified slots when isModified, else into the baseline slots
together with the record itself); on failure record only the error
message; finally clear the loading flag. -/
def debouncedPredictRun (st : EngineState) (data : StudentInput) (isModified : Bool)
    (predictOutcome : Except String PredictionResponse)
    (explainOutcome : Except String ExplanationResponse) : EngineState :=
  match promiseAll predictOutcome explainOutcome with
  | .ok (predictionResponse, explanationResponse) =>
      if isModified then
        { st with modifiedPrediction := some predictionResponse
                  modifiedExplanation := some explanationResponse
                  isLoading := false }
      else
        { st with originalPrediction := some predictionResponse
                  originalExplanation := some explanationResponse
                  originalData := some data
                  isLoading := false }
  | .error msg => { st with error := some msg, isLoading := false }

/-- WhatIfAnalysis.handleReset: clear baseline, results, changed fields
and error. -/
def handleReset (st : EngineState) : EngineState :=
  { st with originalData := none, originalPrediction := none, modifiedPrediction := none
            originalExplanation := none, modifiedExplanation := none
            changedFields := [], error := none }

/-- Trailing-edge debounce (lodash `debounce(f, wait)` with default
options) over a time-stamped call trace: each call re-arms the timer; the
pending invocation fires with the latest arguments `wait` after the last
call of a burst, and a call arriving before the timer elapses replaces
the pending invocation. Returns the fired invocations as
(fire time, argument) pairs. -/
def debounceDispatches {α : Type} (wait : ℕ) : List (ℕ × α) → List (ℕ × α)
  | [] => []
  | [e] => [(e.1 + wait, e.2)]
  | e :: e' :: rest =>
      if e'.1 < e.1 + wait then debounceDispatches wait (e' :: rest)
      else (e.1 + wait, e.2) :: debounceDispatches wait (e' :: rest)

/-- C2 witness data: the worked example of spec §8 (baseline SHAP 0.05 /
0.30, modified SHAP 0.12 / 0.30, changed field total_clicks). -/
def sampleShapO : List (String × ℚ) :=
  [("total_clicks", Rat.divInt 1 20), ("avg_assessment_score", Rat.divInt 3 10)]

/-- Modified SHAP mapping of the spec §8 worked example. -/
def sampleShapM : List (String × ℚ) :=
  [("total_clicks", Rat.divInt 3 25), ("avg_assessment_score", Rat.divInt 3 10)]

/-- Baseline explanation carrying sampleShapO. -/
def sampleExplanationO : ExplanationResponse :=
  { student_id := 12345, prediction := "Pass", shap_values := some sampleShapO
    lime_explanation := none, feature_importance := none }

/-- Modified explanation carrying sampleShapM. -/
def sampleExplanationM : ExplanationResponse :=
  { student_id := 12345, prediction := "Pass", shap_values := some sampleShapM
    lime_explanation := none, feature_importance := none }

/-- An explanation whose feature_importance list arrives in ascending
order of importance, exercising the fact that
prepareFeatureImportanceData performs no sort of its own. -/
def unsortedFIExplanation : ExplanationResponse :=
  { student_id := 1, prediction := "Pass", shap_values := none
    lime_explanation := none
    feature_importance := some
      [{ feature := "total_clicks", importance := 1, direction := "positive"
         shap_value := 1, lime_value := 1 },
       { feature := "active_days", importance := 5, direction := "positive"
         shap_value := 5, lime_value := 5 }] }

/-- A sample prediction result. -/
def samplePrediction : PredictionResponse :=
  { prediction := "Pass", probabilities := [("Pass", 1)], confidence := 1
    student_id := 12345 }

/-- A state that already holds a baseline and a previously successful
modified result pair. -/
def staleState : EngineState :=
  { initialEngineState with
      originalData := some defaultStudent
      modifiedPrediction := some samplePrediction
      modifiedExplanation := some sampleExplanationM }

/-- Whether `pat` is a leading segment of `l`. -/
def startsWithChars : List Char → List Char → Bool
  | [], _ => true
  | _ :: _, [] => false
  | p :: ps, c :: cs => (p == c) && startsWithChars ps cs

/-- Whether `pat` occurs contiguously anywhere in `l`. -/
def containsChars (pat : List Char) : List Char → Bool
  | [] => startsWithChars pat []
  | c :: cs => startsWithChars pat (c :: cs) || containsChars pat cs

/-- Whether `pat` occurs verbatim as a contiguous substring of `s`. -/
def occursIn (pat s : String) : Bool :=
  containsChars pat.toList s.toList

/-- A 422 rejection carrying a server-supplied detail string, the input
shape the spec's error-payload contract describes. -/
def sample422Error : AxiosError :=
  { status := some 422, detail := some "bad gender", code := none
    message := "Request failed with status code 422" }

/-- An engine state that already holds a baseline record. -/
def baselineState : EngineState :=
  { initialEngineState with originalData := some defaultStudent }

attribute [ext] StudentInput

/-- Membership in the accumulator-based first-occurrence dedup. -/
theorem mem_dedupFirstAux (x : String) :
    ∀ (l seen : List String), x ∈ dedupFirstAux l seen ↔ x ∈ l ∧ x ∉ seen := by
  intro l
  induction l with
  | nil => intro seen; simp [dedupFirstAux]
  | cons y ys ih =>
    intro seen
    by_cases hy : y ∈ seen
    · simp only [dedupFirstAux, if_pos hy, ih seen, List.mem_cons]
      constructor
      · rintro ⟨h1, h2⟩; exact ⟨Or.inr h1, h2⟩
      · rintro ⟨h1 | h1, h2⟩
        · exact absurd (h1 ▸ hy) h2
        · exact ⟨h1, h2⟩
    · simp only [dedupFirstAux, if_neg hy, List.mem_cons, ih (y :: seen)]
      by_cases hxy : x = y
      · subst hxy; simp [hy]
      · simp [hxy]

/-- Characterisation of the feature-name union of getComparisonData. -/
theorem mem_unionKeys (f : String) (originalShap modifiedShap : List (String × ℚ)) :
    f ∈ unionKeys originalShap modifiedShap ↔
      f ∈ originalShap.map Prod.fst ∨ f ∈ modifiedShap.map Prod.fst := by
  simp [unionKeys, mem_dedupFirstAux]

/-- C1: the changed-field computation of WhatIfInputForm returns exactly
the field names on which the two records differ under per-field strict
value equality (membership characterisation; emptiness iff the records
are equal, so a field edited back to its baseline value is not reported),
and the result replaces the prior changed-field set entirely
(handleModifiedDataChange stores exactly the freshly computed list). -/
theorem changedFields_exact (formData originalData : StudentInput) :
    (∀ k, k ∈ changedFieldsOf formData originalData ↔
       k ∈ studentInputKeys ∧ getField formData k ≠ getField originalData k) ∧
    (changedFieldsOf formData originalData = [] ↔ formData = originalData) ∧
    (∀ st data cf, (handleModifiedDataChange st data cf).1.changedFields = cf) := by
  refine ⟨?_, ⟨?_, ?_⟩, ?_⟩
  · intro k
    simp [changedFieldsOf, List.mem_filter]
  · intro h
    have hall : ∀ k ∈ studentInputKeys, getField formData k = getField originalData k := by
      intro k hk
      by_contra hne
      have hmem : k ∈ changedFieldsOf formData originalData := by
        simp only [changedFieldsOf, List.mem_filter]
        exact ⟨hk, by simpa using hne⟩
      rw [h] at hmem
      exact (List.not_mem_nil k) hmem
    exact StudentInput.ext
      (FieldValue.num.inj (hall "id_student" (by decide)))
      (FieldValue.str.inj (hall "code_module" (by decide)))
      (FieldValue.str.inj (hall "code_presentation" (by decide)))
      (FieldValue.str.inj (hall "gender" (by decide)))
      (FieldValue.str.inj (hall "region" (by decide)))
      (FieldValue.str.inj (hall "highest_education" (by decide)))
      (FieldValue.str.inj (hall "imd_band" (by decide)))
      (FieldValue.str.inj (hall "age_band" (by decide)))
      (FieldValue.num.inj (hall "num_of_prev_attempts" (by decide)))
      (FieldValue.num.inj (hall "studied_credits" (by decide)))
      (FieldValue.str.inj (hall "disability" (by decide)))
      (FieldValue.bool.inj (hall "completed_course" (by decide)))
      (FieldValue.bool.inj (hall "withdrawal_status" (by decide)))
      (FieldValue.num.inj (hall "total_clicks" (by decide)))
      (FieldValue.num.inj (hall "avg_clicks_per_session" (by decide)))
      (FieldValue.num.inj (hall "click_variability" (by decide)))
      (FieldValue.num.inj (hall "total_sessions" (by decide)))
      (FieldValue.num.inj (hall "first_access_day" (by decide)))
      (FieldValue.num.inj (hall "last_access_day" (by decide)))
      (FieldValue.num.inj (hall "active_days" (by decide)))
      (FieldValue.num.inj (hall "engagement_duration" (by decide)))
      (FieldValue.num.inj (hall "daily_engagement_rate" (by decide)))
      (FieldValue.num.inj (hall "avg_assessment_score" (by decide)))
      (FieldValue.num.inj (hall "score_consistency" (by decide)))
      (FieldValue.num.inj (hall "total_assessments" (by decide)))
      (FieldValue.num.inj (hall "first_submission" (by decide)))
      (FieldValue.num.inj (hall "last_submission" (by decide)))
      (FieldValue.num.inj (hall "banked_assessments" (by decide)))
  · rintro rfl
    simp [changedFieldsOf]
  · intro st data cf
    cases h : st.originalData <;> simp [handleModifiedDataChange, h]

/-- C2: with both SHAP mappings present, getComparisonData is the 10-row
truncation of a permutation of one row per feature of the key union,
sorted by descending absolute change; the union is exactly the features
present on either side; each row carries change = modified − baseline
(an absent side contributing 0 through lookupD) and the isChanged flag is
membership of the raw feature name in the changed-field set. -/
theorem getComparisonData_spec
    (originalShap modifiedShap : List (String × ℚ)) (changedFields : List String)
    (oe me : ExplanationResponse)
    (ho : oe.shap_values = some originalShap) (hm : me.shap_values = some modifiedShap) :
    ∃ sortedRows : List CompRow,
      sortedRows.Perm ((unionKeys originalShap modifiedShap).map
          (mkRow originalShap modifiedShap changedFields)) ∧
      sortedRows.Sorted rowGE ∧
      getComparisonData (some oe) (some me) changedFields = sortedRows.take 10 ∧
      (getComparisonData (some oe) (some me) changedFields).length ≤ 10 ∧
      (getComparisonData (some oe) (some me) changedFields).Sorted rowGE ∧
      (∀ row ∈ getComparisonData (some oe) (some me) changedFields,
         ∃ f ∈ unionKeys originalShap modifiedShap,
           row = mkRow originalShap modifiedShap changedFields f) ∧
      (∀ f, f ∈ unionKeys originalShap modifiedShap ↔
         f ∈ originalShap.map Prod.fst ∨ f ∈ modifiedShap.map Prod.fst) ∧
      (∀ f, (mkRow originalShap modifiedShap changedFields f).change
              = lookupD modifiedShap f - lookupD originalShap f ∧
            (mkRow originalShap modifiedShap changedFields f).isChanged
              = changedFields.contains f) := by
  have hdef : getComparisonData (some oe) (some me) changedFields =
      (List.insertionSort rowGE ((unionKeys originalShap modifiedShap).map
        (mkRow originalShap modifiedShap changedFields))).take 10 := by
    simp [getComparisonData, shapValuesOf, ho, hm]
  refine ⟨List.insertionSort rowGE ((unionKeys originalShap modifiedShap).map
      (mkRow originalShap modifiedShap changedFields)),
    List.perm_insertionSort rowGE _, List.sorted_insertionSort rowGE _, hdef, ?_, ?_, ?_, ?_, ?_⟩
  · rw [hdef]; exact List.length_take_le 10 _
  · rw [hdef]
    exact (List.sorted_insertionSort rowGE _).sublist (List.take_sublist 10 _)
  · intro row hrow
    rw [hdef] at hrow
    have h1 : row ∈ List.insertionSort rowGE ((unionKeys originalShap modifiedShap).map
        (mkRow originalShap modifiedShap changedFields)) := List.mem_of_mem_take hrow
    have h2 := (List.perm_insertionSort rowGE _).mem_iff.mp h1
    obtain ⟨f, hf, hrw⟩ := List.mem_map.mp h2
    exact ⟨f, hf, hrw.symm⟩
  · intro f; exact mem_unionKeys f originalShap modifiedShap
  · intro f; exact ⟨rfl, rfl⟩

/-- Witness for C2: getComparisonData_spec applied to the spec §8 worked
example. -/
theorem getComparisonData_spec_witness :
    ∃ sortedRows : List CompRow,
      sortedRows.Perm ((unionKeys sampleShapO sampleShapM).map
          (mkRow sampleShapO sampleShapM ["total_clicks"])) ∧
      sortedRows.Sorted rowGE ∧
      getComparisonData (some sampleExplanationO) (some sampleExplanationM) ["total_clicks"]
        = sortedRows.take 10 ∧
      (getComparisonData (some sampleExplanationO) (some sampleExplanationM)
        ["total_clicks"]).length ≤ 10 ∧
      (getComparisonData (some sampleExplanationO) (some sampleExplanationM)
        ["total_clicks"]).Sorted rowGE ∧
      (∀ row ∈ getComparisonData (some sampleExplanationO) (some sampleExplanationM)
          ["total_clicks"],
         ∃ f ∈ unionKeys sampleShapO sampleShapM,
           row = mkRow sampleShapO sampleShapM ["total_clicks"] f) ∧
      (∀ f, f ∈ unionKeys sampleShapO sampleShapM ↔
         f ∈ sampleShapO.map Prod.fst ∨ f ∈ sampleShapM.map Prod.fst) ∧
      (∀ f, (mkRow sampleShapO sampleShapM ["total_clicks"] f).change
              = lookupD sampleShapM f - lookupD sampleShapO f ∧
            (mkRow sampleShapO sampleShapM ["total_clicks"] f).isChanged
              = List.contains ["total_clicks"] f) :=
  getComparisonData_spec sampleShapO sampleShapM ["total_clicks"]
    sampleExplanationO sampleExplanationM rfl rfl

/-- C3: when either explanation's SHAP mapping is absent (the explanation
itself missing, or its shap_values field null), getComparisonData
returns the empty list rather than failing. -/
theorem getComparisonData_empty_on_missing_shap
    (originalExplanation modifiedExplanation : Option ExplanationResponse)
    (changedFields : List String)
    (h : shapValuesOf originalExplanation = none ∨ shapValuesOf modifiedExplanation = none) :
    getComparisonData originalExplanation modifiedExplanation changedFields = [] := by
  unfold getComparisonData
  rcases h with h | h
  · rw [h]
  · rw [h]
    cases shapValuesOf originalExplanation <;> rfl

/-- Witness for C3: a missing baseline explanation yields the empty row
list. -/
theorem getComparisonData_empty_on_missing_shap_witness :
    getComparisonData none (some sampleExplanationM) ["total_clicks"] = [] :=
  getComparisonData_empty_on_missing_shap none (some sampleExplanationM)
    ["total_clicks"] (Or.inl rfl)

/-- Counterexample for C4: the feature-importance chart data is not
sorted by descending absolute importance when the service-provided list
is not — the source truncates the list as given without re-sorting, so
the claim that all three single-sided rankings are sorted fails at this
input. -/
theorem prepareFeatureImportanceData_unsorted_example :
    ¬ (prepareFeatureImportanceData (some unsortedFIExplanation)).Pairwise fiGE := by
  intro h
  have hl : prepareFeatureImportanceData (some unsortedFIExplanation)
      = [toFIEntry { feature := "total_clicks", importance := 1, direction := "positive"
                     shap_value := 1, lime_value := 1 },
         toFIEntry { feature := "active_days", importance := 5, direction := "positive"
                     shap_value := 5, lime_value := 5 }] := rfl
  rw [hl] at h
  have h2 := List.rel_of_pairwise_cons h (List.mem_cons_self _ _)
  simp only [fiGE, toFIEntry] at h2
  norm_num at h2

/-- C4 (amended): the SHAP and LIME single-sided rankings each produce at
most 10 entries sorted by descending absolute value; the
feature-importance preparation produces at most 10 entries but is merely
the first 10 items of the service-provided list in their given order
(sorted only if that list already is). -/
theorem singleSidedRankings_spec (explanation : Option ExplanationResponse) :
    (prepareSHAPData explanation).length ≤ 10 ∧
    (prepareSHAPData explanation).Sorted entryGE ∧
    (prepareLIMEData explanation).length ≤ 10 ∧
    (prepareLIMEData explanation).Sorted entryGE ∧
    (prepareFeatureImportanceData explanation).length ≤ 10 ∧
    (∀ E : ExplanationResponse, prepareFeatureImportanceData (some E)
       = ((E.feature_importance.getD []).take 10).map toFIEntry) := by
  refine ⟨?_, ?_, ?_, ?_, ?_, ?_⟩
  · cases h : shapValuesOf explanation with
    | none => simp [prepareSHAPData, h]
    | some sv =>
      have hs : prepareSHAPData explanation = (List.insertionSort entryGE
          (sv.map (fun p => ⟨displayName p.1, p.2, |p.2|⟩))).take 10 := by
        unfold prepareSHAPData; rw [h]
      rw [hs]; exact List.length_take_le 10 _
  · cases h : shapValuesOf explanation with
    | none => simp [prepareSHAPData, h]
    | some sv =>
      have hs : prepareSHAPData explanation = (List.insertionSort entryGE
          (sv.map (fun p => ⟨displayName p.1, p.2, |p.2|⟩))).take 10 := by
        unfold prepareSHAPData; rw [h]
      rw [hs]
      exact (List.sorted_insertionSort entryGE _).sublist (List.take_sublist 10 _)
  · cases h : topFeaturesOf explanation with
    | none => simp [prepareLIMEData, h]
    | some tf =>
      have hs : prepareLIMEData explanation = (List.insertionSort entryGE
          (tf.map (fun p => ⟨displayName p.1, p.2, |p.2|⟩))).take 10 := by
        unfold prepareLIMEData; rw [h]
      rw [hs]; exact List.length_take_le 10 _
  · cases h : topFeaturesOf explanation with
    | none => simp [prepareLIMEData, h]
    | some tf =>
      have hs : prepareLIMEData explanation = (List.insertionSort entryGE
          (tf.map (fun p => ⟨displayName p.1, p.2, |p.2|⟩))).take 10 := by
        unfold prepareLIMEData; rw [h]
      rw [hs]
      exact (List.sorted_insertionSort entryGE _).sublist (List.take_sublist 10 _)
  · cases h : featureImportanceOf explanation with
    | none => simp [prepareFeatureImportanceData, h]
    | some fi =>
      have hs : prepareFeatureImportanceData explanation = (fi.take 10).map toFIEntry := by
        unfold prepareFeatureImportanceData; rw [h]
      rw [hs, List.length_map]
      exact le_trans (le_of_eq (List.length_take _ _)) (min_le_left _ _)
  · intro E
    cases h : E.feature_importance <;>
      simp [prepareFeatureImportanceData, featureImportanceOf, h]

/-- C5: an edit arriving while no baseline exists schedules no debounced
predict+explain pair, the state stays in "no baseline", and every other
state component except the changed-field list is untouched. -/
theorem applyEdit_noop_without_baseline (st : EngineState) (data : StudentInput)
    (changedFieldsList : List String) (h : st.originalData = none) :
    (handleModifiedDataChange st data changedFieldsList).2 = none ∧
    (handleModifiedDataChange st data changedFieldsList).1.originalData = none ∧
    (handleModifiedDataChange st data changedFieldsList).1.originalPrediction
      = st.originalPrediction ∧
    (handleModifiedDataChange st data changedFieldsList).1.modifiedPrediction
      = st.modifiedPrediction ∧
    (handleModifiedDataChange st data changedFieldsList).1.originalExplanation
      = st.originalExplanation ∧
    (handleModifiedDataChange st data changedFieldsList).1.modifiedExplanation
      = st.modifiedExplanation ∧
    (handleModifiedDataChange st data changedFieldsList).1.isLoading = st.isLoading ∧
    (handleModifiedDataChange st data changedFieldsList).1.error = st.error := by
  simp [handleModifiedDataChange, h]

/-- Witness for C5: applying an edit to the initial engine state. -/
theorem applyEdit_noop_without_baseline_witness :
    (handleModifiedDataChange initialEngineState defaultStudent ["total_clicks"]).2 = none ∧
    (handleModifiedDataChange initialEngineState defaultStudent
      ["total_clicks"]).1.originalData = none ∧
    (handleModifiedDataChange initialEngineState defaultStudent
      ["total_clicks"]).1.originalPrediction = initialEngineState.originalPrediction ∧
    (handleModifiedDataChange initialEngineState defaultStudent
      ["total_clicks"]).1.modifiedPrediction = initialEngineState.modifiedPrediction ∧
    (handleModifiedDataChange initialEngineState defaultStudent
      ["total_clicks"]).1.originalExplanation = initialEngineState.originalExplanation ∧
    (handleModifiedDataChange initialEngineState defaultStudent
      ["total_clicks"]).1.modifiedExplanation = initialEngineState.modifiedExplanation ∧
    (handleModifiedDataChange initialEngineState defaultStudent
      ["total_clicks"]).1.isLoading = initialEngineState.isLoading ∧
    (handleModifiedDataChange initialEngineState defaultStudent
      ["total_clicks"]).1.error = initialEngineState.error :=
  applyEdit_noop_without_baseline initialEngineState defaultStudent ["total_clicks"] rfl

/-- C7: establishBaseline (debouncedPredict with isModified = false) is
atomic. On any failure of the joint predict+explain pair no baseline
component is mutated and only the error message is recorded; the
composite fails with the predict error when predict rejects and with the
explain error when only explain rejects (the other result being
discarded); on joint success the record and both results are stored. -/
theorem establishBaseline_atomic (st : EngineState) (data : StudentInput)
    (predictOutcome : Except String PredictionResponse)
    (explainOutcome : Except String ExplanationResponse) :
    (∀ msg, promiseAll predictOutcome explainOutcome = .error msg →
       (debouncedPredictRun st data false predictOutcome explainOutcome).originalData
         = st.originalData ∧
       (debouncedPredictRun st data false predictOutcome explainOutcome).originalPrediction
         = st.originalPrediction ∧
       (debouncedPredictRun st data false predictOutcome explainOutcome).originalExplanation
         = st.originalExplanation ∧
       (debouncedPredictRun st data false predictOutcome explainOutcome).modifiedPrediction
         = st.modifiedPrediction ∧
       (debouncedPredictRun st data false predictOutcome explainOutcome).modifiedExplanation
         = st.modifiedExplanation ∧
       (debouncedPredictRun st data false predictOutcome explainOutcome).error = some msg) ∧
    (∀ p e, predictOutcome = .ok p → explainOutcome = .ok e →
       (debouncedPredictRun st data false predictOutcome explainOutcome).originalData
         = some data ∧
       (debouncedPredictRun st data false predictOutcome explainOutcome).originalPrediction
         = some p ∧
       (debouncedPredictRun st data false predictOutcome explainOutcome).originalExplanation
         = some e) ∧
    (∀ msg, predictOutcome = .error msg →
       promiseAll predictOutcome explainOutcome = .error msg) ∧
    (∀ p msg, predictOutcome = .ok p → explainOutcome = .error msg →
       promiseAll predictOutcome explainOutcome = .error msg) := by
  refine ⟨?_, ?_, ?_, ?_⟩
  · intro msg hmsg
    simp [debouncedPredictRun, hmsg]
  · intro p e hp he
    subst hp; subst he
    simp [debouncedPredictRun, promiseAll]
  · intro msg hmsg
    subst hmsg
    cases explainOutcome <;> rfl
  · intro p msg hp hmsg
    subst hp; subst hmsg
    rfl

/-- Witness for C7: a failing predict call leaves the initial state's
baseline untouched and records the error; a successful pair stores the
record and both results; both rejection shapes surface the documented
first error. -/
theorem establishBaseline_atomic_witness :
    ((debouncedPredictRun initialEngineState defaultStudent false (Except.error "boom")
        (Except.ok sampleExplanationM)).originalData = initialEngineState.originalData ∧
     (debouncedPredictRun initialEngineState defaultStudent false (Except.error "boom")
        (Except.ok sampleExplanationM)).originalPrediction
          = initialEngineState.originalPrediction ∧
     (debouncedPredictRun initialEngineState defaultStudent false (Except.error "boom")
        (Except.ok sampleExplanationM)).originalExplanation
          = initialEngineState.originalExplanation ∧
     (debouncedPredictRun initialEngineState defaultStudent false (Except.error "boom")
        (Except.ok sampleExplanationM)).modifiedPrediction
          = initialEngineState.modifiedPrediction ∧
     (debouncedPredictRun initialEngineState defaultStudent false (Except.error "boom")
        (Except.ok sampleExplanationM)).modifiedExplanation
          = initialEngineState.modifiedExplanation ∧
     (debouncedPredictRun initialEngineState defaultStudent false (Except.error "boom")
        (Except.ok sampleExplanationM)).error = some "boom") ∧
    ((debouncedPredictRun initialEngineState defaultStudent false
        (Except.ok samplePrediction) (Except.ok sampleExplanationM)).originalData
          = some defaultStudent ∧
     (debouncedPredictRun initialEngineState defaultStudent false
        (Except.ok samplePrediction) (Except.ok sampleExplanationM)).originalPrediction
          = some samplePrediction ∧
     (debouncedPredictRun initialEngineState defaultStudent false
        (Except.ok samplePrediction) (Except.ok sampleExplanationM)).originalExplanation
          = some sampleExplanationM) ∧
    promiseAll (Except.error "boom" : Except String PredictionResponse)
      (Except.ok sampleExplanationM : Except String ExplanationResponse)
        = Except.error "boom" ∧
    promiseAll (Except.ok samplePrediction : Except String PredictionResponse)
      (Except.error "bang" : Except String ExplanationResponse)
        = Except.error "bang" :=
  ⟨(establishBaseline_atomic initialEngineState defaultStudent (Except.error "boom")
      (Except.ok sampleExplanationM)).1 "boom" rfl,
   (establishBaseline_atomic initialEngineState defaultStudent (Except.ok samplePrediction)
      (Except.ok sampleExplanationM)).2.1 samplePrediction sampleExplanationM rfl rfl,
   (establishBaseline_atomic initialEngineState defaultStudent (Except.error "boom")
      (Except.ok sampleExplanationM)).2.2.1 "boom" rfl,
   (establishBaseline_atomic initialEngineState defaultStudent (Except.ok samplePrediction)
      (Except.error "bang")).2.2.2 samplePrediction "bang" rfl rfl⟩

/-- C8: when a what-if re-evaluation (isModified = true) fails, the error
message is recorded and the previously stored modified prediction and
explanation — and all baseline components — are left unchanged. -/
theorem whatIfFailure_keeps_stale_results (st : EngineState) (data : StudentInput)
    (predictOutcome : Except String PredictionResponse)
    (explainOutcome : Except String ExplanationResponse) (msg : String)
    (h : promiseAll predictOutcome explainOutcome = .error msg) :
    (debouncedPredictRun st data true predictOutcome explainOutcome).modifiedPrediction
      = st.modifiedPrediction ∧
    (debouncedPredictRun st data true predictOutcome explainOutcome).modifiedExplanation
      = st.modifiedExplanation ∧
    (debouncedPredictRun st data true predictOutcome explainOutcome).error = some msg ∧
    (debouncedPredictRun st data true predictOutcome explainOutcome).originalData
      = st.originalData ∧
    (debouncedPredictRun st data true predictOutcome explainOutcome).originalPrediction
      = st.originalPrediction ∧
    (debouncedPredictRun st data true predictOutcome explainOutcome).originalExplanation
      = st.originalExplanation := by
  simp [debouncedPredictRun, h]

/-- Witness for C8: a failed re-evaluation over staleState keeps the old
modified results and records the message. -/
theorem whatIfFailure_keeps_stale_results_witness :
    (debouncedPredictRun staleState defaultStudent true (Except.error "boom")
        (Except.ok sampleExplanationM)).modifiedPrediction = staleState.modifiedPrediction ∧
    (debouncedPredictRun staleState defaultStudent true (Except.error "boom")
        (Except.ok sampleExplanationM)).modifiedExplanation = staleState.modifiedExplanation ∧
    (debouncedPredictRun staleState defaultStudent true (Except.error "boom")
        (Except.ok sampleExplanationM)).error = some "boom" ∧
    (debouncedPredictRun staleState defaultStudent true (Except.error "boom")
        (Except.ok sampleExplanationM)).originalData = staleState.originalData ∧
    (debouncedPredictRun staleState defaultStudent true (Except.error "boom")
        (Except.ok sampleExplanationM)).originalPrediction = staleState.originalPrediction ∧
    (debouncedPredictRun staleState defaultStudent true (Except.error "boom")
        (Except.ok sampleExplanationM)).originalExplanation = staleState.originalExplanation :=
  whatIfFailure_keeps_stale_results staleState defaultStudent (Except.error "boom")
    (Except.ok sampleExplanationM) "boom" rfl

/-- Counterexample for C6: for a failing predict call with HTTP status
422 and server detail "bad gender", the message surfaced to the calling
component is the fixed generic one and does not contain the detail — the
interceptor does build a detailed message, but the service-level catch
discards it. -/
theorem predict422_detail_not_surfaced :
    predictStudentPerformance (Except.error sample422Error)
      = Except.error "Failed to predict student performance" ∧
    occursIn "bad gender" "Failed to predict student performance" = false ∧
    interceptResponseError sample422Error = "Validation Error: bad gender" :=
  ⟨rfl, by decide, by decide⟩

/-- C6 (amended): the response interceptor's message for a 422 carries
the server detail verbatim ("Validation Error: " ++ detail, with a
fallback for an absent or empty detail), but the error surfaced to the
calling component by predict, explain and health is a fixed generic
per-operation message for every failure cause, the interceptor's
detailed message being discarded by each service method's catch-all. -/
theorem apiErrorMessages_spec :
    (∀ (e : AxiosError) (d : String), e.status = some 422 → e.detail = some d → d ≠ "" →
       interceptResponseError e = "Validation Error: " ++ d) ∧
    (∀ e : AxiosError,
       predictStudentPerformance (Except.error e)
         = Except.error "Failed to predict student performance") ∧
    (∀ e : AxiosError,
       explainPrediction (Except.error e) = Except.error "Failed to generate explanation") ∧
    (∀ e : AxiosError,
       checkHealth (Except.error e) = Except.error "Failed to check API health") ∧
    (∀ r : PredictionResponse, predictStudentPerformance (Except.ok r) = Except.ok r) := by
  refine ⟨?_, ?_, ?_, ?_, ?_⟩
  · intro e d h1 h2 h3
    simp [interceptResponseError, h1, h2, h3]
  · intro e; rfl
  · intro e; rfl
  · intro e; rfl
  · intro r; rfl

/-- Witness for C6 (amended): the interceptor-level and service-level
messages at the concrete 422 rejection. -/
theorem apiErrorMessages_spec_witness :
    interceptResponseError sample422Error = "Validation Error: " ++ "bad gender" ∧
    explainPrediction (Except.error sample422Error)
      = Except.error "Failed to generate explanation" ∧
    checkHealth (Except.error sample422Error)
      = Except.error "Failed to check API health" ∧
    predictStudentPerformance (Except.ok samplePrediction) = Except.ok samplePrediction :=
  ⟨apiErrorMessages_spec.1 sample422Error "bad gender" rfl rfl (by decide),
   apiErrorMessages_spec.2.2.1 sample422Error,
   apiErrorMessages_spec.2.2.2.1 sample422Error,
   apiErrorMessages_spec.2.2.2.2 samplePrediction⟩

/-- A single burst of calls (each arriving before the previous timer
elapses) fires exactly once, `wait` after the last call, with the last
call's argument. -/
theorem debounceDispatches_burst {α : Type} (wait : ℕ) :
    ∀ (e : ℕ × α) (rest : List (ℕ × α)),
      List.Chain' (fun a b => a.1 < b.1 ∧ b.1 - a.1 < wait) (e :: rest) →
      debounceDispatches wait (e :: rest)
        = [(((e :: rest).getLast (List.cons_ne_nil e rest)).1 + wait,
            ((e :: rest).getLast (List.cons_ne_nil e rest)).2)] := by
  intro e rest
  induction rest generalizing e with
  | nil => intro _; rfl
  | cons e2 rest2 ih =>
    intro h
    obtain ⟨⟨hlt, hgap⟩, htail⟩ := List.chain'_cons.mp h
    have hcond : e2.1 < e.1 + wait := by omega
    have hrec := ih e2 htail
    simp only [debounceDispatches, if_pos hcond]
    rw [hrec]
    simp [List.getLast_cons]

/-- C9: for any sequence of edits with strictly increasing arrival times
in which each edit arrives less than `wait` after the previous one, the
trailing-edge debounce dispatches exactly one invocation, carrying the
record state of the last edit (an edit arriving before the delay elapses
replaces the pending dispatch rather than queueing behind it); and each
such dispatched invocation, applied while a baseline exists, schedules
exactly one predict+explain pair for the edited record. -/
theorem debounce_coalescing {α : Type} (wait : ℕ) (e : ℕ × α) (rest : List (ℕ × α))
    (h : List.Chain' (fun a b => a.1 < b.1 ∧ b.1 - a.1 < wait) (e :: rest)) :
    debounceDispatches wait (e :: rest)
      = [(((e :: rest).getLast (List.cons_ne_nil e rest)).1 + wait,
          ((e :: rest).getLast (List.cons_ne_nil e rest)).2)] ∧
    (∀ st data cf, st.originalData.isSome = true →
       (handleModifiedDataChange st data cf).2 = some ⟨data, true⟩) := by
  refine ⟨debounceDispatches_burst wait e rest h, ?_⟩
  intro st data cf h2
  obtain ⟨x, hx⟩ := Option.isSome_iff_exists.mp h2
  simp [handleModifiedDataChange, hx]

/-- Witness for C9: three edits at t = 0, 100, 300 with wait 500 fire a
single dispatch at t = 800 carrying the last edit's state, and a
dispatch over a state with a baseline schedules one predict+explain
pair. -/
theorem debounce_coalescing_witness :
    debounceDispatches 500 [((0 : ℕ), (1 : ℕ)), (100, 2), (300, 3)] = [(800, 3)] ∧
    (handleModifiedDataChange baselineState defaultStudent ["total_clicks"]).2
      = some ⟨defaultStudent, true⟩ := by
  have h := debounce_coalescing 500 ((0 : ℕ), (1 : ℕ)) [(100, 2), (300, 3)]
    (by norm_num [List.chain'_cons, List.chain'_singleton])
  exact ⟨h.1.trans (by decide), h.2 baselineState defaultStudent ["total_clicks"] rfl⟩

end XaiDashboard
